import Mathlib

/-!
Verification development for the sarajevosmogsquad repository
(src/generate_story_img.py and src/post_story.py), a three-stage
pipeline: fetch an AQI integer from a web page, render it onto a
story image, and publish the image through a two-step HTTP workflow.

The Python source is shallowly embedded: pure functions become Lean
functions over `Int`/`String`; the ambient effects (filesystem, HTTP,
environment, clock) become explicit oracle parameters, and each
effectful entry point returns the trace of its observable events
together with its result (`Except` models a raised exception whose
payload is the Python exception's message).
-/

/-! ## Severity-tier classification (src/generate_story_img.py, lines 9-28)

`get_base_image_name_and_color_from_aqi` and `get_label_from_aqi` are
direct translations of the two Python if/elif chains; Python integers
are modelled by `Int`. -/

/-- Translation of `get_base_image_name_and_color_from_aqi`: the
background-asset name and the text color for an AQI value. -/
def get_base_image_name_and_color_from_aqi (aqi : Int) : String × String :=
  if aqi < 50 then ("good", "#2d3f5b")
  else if aqi < 100 then ("ok", "#2d3f5b")
  else if aqi < 200 then ("bad", "#28201d")
  else ("dangerous", "#30130b")

/-- Translation of `get_label_from_aqi`: the human-readable label for an
AQI value. -/
def get_label_from_aqi (aqi : Int) : String :=
  if aqi < 50 then "Breathe easy"
  else if aqi < 100 then "Mostly fine"
  else if aqi < 200 then "Unhealthy air"
  else "Stay inside!"

/-! ## Python `str.replace` (used by `sanitize_error_message`,
src/post_story.py line 47)

`pyReplace s pat rep` models Python's `s.replace(pat, rep)`: the
leftmost occurrence of `pat` is replaced by `rep`, scanning resumes
after the inserted text (occurrences never overlap), and for the empty
pattern `rep` is inserted before every character and at the end, as
Python does. Strings are handled as their character lists. -/

/-- Model of Python `s.replace(pat, rep)` on character lists. -/
def pyReplace (s pat rep : List Char) : List Char :=
  if h : pat ≠ [] ∧ pat <+: s then
    rep ++ pyReplace (s.drop pat.length) pat rep
  else
    match s with
    | [] => if pat = [] then rep else []
    | c :: rest => (if pat = [] then rep else []) ++ c :: pyReplace rest pat rep
termination_by s.length
decreasing_by
  · have h1 : 0 < pat.length := List.length_pos.mpr h.1
    have h2 : pat.length ≤ s.length := h.2.length_le
    simp only [List.length_drop]
    omega
  · simp

/-- Translation of `sanitize_error_message` (src/post_story.py lines
46-47): `message.replace(access_token, "***REDACTED***")`. -/
def sanitize_error_message (message : String) (access_token : String) : String :=
  ⟨pyReplace message.toList access_token.toList "***REDACTED***".toList⟩

/-! ## AQI fetcher (src/generate_story_img.py, lines 31-62)

The HTTP transport and the BeautifulSoup HTML parse are abstracted: a
`Soup` value records what the two selectors used by the code extract
from the fetched page. `aqiValueText` is the text of the
`<p class="aqi-value__value">` element when that element exists;
`usAqiPrevStrings` is, when some text node contains the marker
"US AQI", the `.string` of each node of `parent.find_all_previous()`
in scan order (`none` entries are nodes whose `.string` is `None`).
Python `str.strip`, `str.isdigit` and `int` are modelled at ASCII
level (the pages involved are ASCII). -/

/-- Characters stripped by Python `str.strip()` (ASCII whitespace). -/
def isPySpace (c : Char) : Bool :=
  c = ' ' || c = '\t' || c = '\n' || c = '\r' || c.toNat = 11 || c.toNat = 12

/-- Model of Python `s.strip()`. -/
def pyStrip (s : String) : String :=
  ⟨((s.toList.dropWhile isPySpace).reverse.dropWhile isPySpace).reverse⟩

/-- Model of Python `s.isdigit()` (ASCII digits). -/
def pyIsDigit (s : String) : Bool :=
  s.toList ≠ [] && s.toList.all Char.isDigit

/-- Numeric value of a list of ASCII digits. -/
def digitsToNat (l : List Char) : Nat :=
  l.foldl (fun a c => 10 * a + (c.toNat - 48)) 0

/-- Exceptions raised by the modelled Python code. -/
inductive PyErr where
  | valueError (msg : String)
  | fileNotFoundError (path : String)
deriving DecidableEq

/-- Model of Python `int(s)` for base 10 on ASCII text: an optional
sign followed by at least one digit; anything else raises ValueError. -/
def pyInt (s : String) : Except PyErr Int :=
  match s.toList with
  | [] => .error (.valueError ("invalid literal for int() with base 10: " ++ s))
  | c :: rest =>
    if c = '-' then
      if rest ≠ [] ∧ rest.all Char.isDigit then .ok (-(digitsToNat rest : Int))
      else .error (.valueError ("invalid literal for int() with base 10: " ++ s))
    else if c = '+' then
      if rest ≠ [] ∧ rest.all Char.isDigit then .ok ((digitsToNat rest : Int))
      else .error (.valueError ("invalid literal for int() with base 10: " ++ s))
    else
      if (c :: rest).all Char.isDigit then .ok ((digitsToNat (c :: rest) : Int))
      else .error (.valueError ("invalid literal for int() with base 10: " ++ s))

/-- What the two selectors extract from the fetched page (see the
section comment). -/
structure Soup where
  aqiValueText : Option String
  usAqiPrevStrings : Option (List (Option String))

/-- The condition of the backward scan (line 52): the node has a
string and that string, stripped, is purely numeric. An empty string
is falsy in Python, and `pyIsDigit` is false on it, so truthiness of
`sibling.string` needs no separate test. -/
def siblingDigitTest (os : Option String) : Bool :=
  match os with
  | some s => pyIsDigit (pyStrip s)
  | none => false

/-- Translation of `fetch_sarajevo_aqi` (lines 31-62) after the HTTP
GET and HTML parse: primary selector, else backward scan from the
"US AQI" marker, else ValueError. -/
def fetch_sarajevo_aqi (soup : Soup) : Except PyErr Int :=
  match soup.aqiValueText with
  | some t => pyInt (pyStrip t)
  | none =>
    match soup.usAqiPrevStrings with
    | some prevs =>
      match prevs.find? siblingDigitTest with
      | some (some s) => pyInt (pyStrip s)
      | _ => .error (.valueError "Could not parse AQI value from page")
    | none => .error (.valueError "Could not find AQI element on page")

/-! ## Image renderer (src/generate_story_img.py, lines 65-125)

PIL and the filesystem are modelled explicitly. A `PILImage` records
the background it was opened from and the text-draw calls applied to
it; the filesystem is a directory list and an association list from
paths to contents; `datetime.now()` and the font metrics used by
`draw.textbbox` become fields of a `RenderWorld` oracle. Python's
floor division `//` is `Int.fdiv`. -/

/-- Zero-padded two-digit decimal (strftime %m, %d, %H). -/
def pad2 (n : Nat) : String :=
  if n < 10 then "0" ++ toString n else toString n

/-- Zero-padded four-digit decimal (strftime %Y). -/
def pad4 (n : Nat) : String :=
  if n < 10 then "000" ++ toString n
  else if n < 100 then "00" ++ toString n
  else if n < 1000 then "0" ++ toString n
  else toString n

/-- A local wall-clock instant, truncated to the fields the code uses. -/
structure Tm where
  year : Nat
  month : Nat
  day : Nat
  hour : Nat
deriving DecidableEq

/-- Model of `now.strftime("%Y-%m-%d_%H")`. -/
def strftime_date_hour (t : Tm) : String :=
  pad4 t.year ++ "-" ++ pad2 t.month ++ "-" ++ pad2 t.day ++ "_" ++ pad2 t.hour

/-- English month names for strftime %B (empty for out-of-range). -/
def monthName : Nat → String
  | 1 => "January"
  | 2 => "February"
  | 3 => "March"
  | 4 => "April"
  | 5 => "May"
  | 6 => "June"
  | 7 => "July"
  | 8 => "August"
  | 9 => "September"
  | 10 => "October"
  | 11 => "November"
  | 12 => "December"
  | _ => ""

/-- Model of `now.strftime("%B %d at %H:00")`. -/
def strftime_caption (t : Tm) : String :=
  monthName t.month ++ " " ++ pad2 t.day ++ " at " ++ pad2 t.hour ++ ":00"

/-- A PIL font handle: a truetype face with a size, or the default
bitmap font (the except-fallback of lines 87-92). -/
inductive PILFont where
  | truetype (path : String) (size : Nat)
  | defaultFont
deriving DecidableEq

/-- One `draw.text((x, y), text, fill, font)` call. -/
structure TextDraw where
  x : Int
  y : Int
  text : String
  fill : String
  font : PILFont
deriving DecidableEq

/-- An in-memory PIL image: the file it was opened from and the draws
applied to it. -/
structure PILImage where
  sourcePath : String
  drawn : List TextDraw
deriving DecidableEq

/-- Contents of a file in the modelled filesystem: a pre-existing file
of unknown bytes, or an image saved by the renderer. -/
inductive FileContent where
  | binary
  | image (img : PILImage)
deriving DecidableEq

/-- The filesystem as seen by the renderer. -/
structure RenderFS where
  dirs : List String
  files : List (String × FileContent)
deriving DecidableEq

/-- Lookup of a path. -/
def fsLookup (fs : RenderFS) (p : String) : Option FileContent :=
  (fs.files.find? (fun q => q.1 == p)).map (fun q => q.2)

/-- `img.save(path)`: create or overwrite. -/
def fsWrite (fs : RenderFS) (p : String) (c : FileContent) : RenderFS :=
  { fs with files := (p, c) :: fs.files.filter (fun q => ¬ q.1 == p) }

/-- `os.makedirs(d, exist_ok=True)` for a single-component path. -/
def fsMakeDir (fs : RenderFS) (d : String) : RenderFS :=
  if d ∈ fs.dirs then fs else { fs with dirs := d :: fs.dirs }

/-- The ambient facts the renderer consults: the current time, whether
`ImageFont.truetype` succeeds on a font path, the text bounding box
`draw.textbbox((0,0), text, font)` as (x0, y0, x1, y1), and the pixel
width of the image opened from a path. -/
structure RenderWorld where
  now : Tm
  fontFileOk : String → Bool
  textbbox : String → PILFont → Int × Int × Int × Int
  imageWidth : String → Int

/-- Translation of `generate_story_image` (lines 65-125). Returns the
filesystem after the call and either the output path or the raised
error. `Image.open` raises FileNotFoundError when the background asset
is absent; nothing is written in that case (the directory was already
created). -/
def generate_story_image (w : RenderWorld) (fs : RenderFS) (aqi : Int) :
    RenderFS × Except PyErr String :=
  let fs1 := fsMakeDir fs "stories"
  let date_hour := strftime_date_hour w.now
  let output_path := "stories/" ++ date_hour ++ ".png"
  let base_image := (get_base_image_name_and_color_from_aqi aqi).1
  let text_color := (get_base_image_name_and_color_from_aqi aqi).2
  let label := get_label_from_aqi aqi
  let background_path := "static/imgs/" ++ base_image ++ ".png"
  match fsLookup fs1 background_path with
  | none => (fs1, .error (.fileNotFoundError background_path))
  | some _ =>
    let formatted_date := strftime_caption w.now
    let helvetica := "/System/Library/Fonts/Helvetica.ttc"
    let font :=
      if w.fontFileOk helvetica then PILFont.truetype helvetica 65
      else PILFont.defaultFont
    let font_large :=
      if w.fontFileOk helvetica then PILFont.truetype helvetica 110
      else PILFont.defaultFont
    let text_line0 := formatted_date
    let text_line1 := "AQI: " ++ toString aqi
    let text_line2 := label
    let img_width := w.imageWidth background_path
    let bbox0 := w.textbbox text_line0 font
    let text_width0 := bbox0.2.2.1 - bbox0.1
    let x0 := Int.fdiv (img_width - text_width0) 2
    let bbox1 := w.textbbox text_line1 font
    let text_width1 := bbox1.2.2.1 - bbox1.1
    let x1 := Int.fdiv (img_width - text_width1) 2
    let bbox2 := w.textbbox text_line2 font_large
    let text_width2 := bbox2.2.2.1 - bbox2.1
    let x2 := Int.fdiv (img_width - text_width2) 2
    let img : PILImage :=
      { sourcePath := background_path
        drawn := [⟨x0, 200, text_line0, text_color, font⟩,
                  ⟨x1, 280, text_line1, text_color, font⟩,
                  ⟨x2, 400, text_line2, text_color, font_large⟩] }
    (fsWrite fs1 output_path (.image img), .ok output_path)

/-- Concrete world for the renderer witnesses: 2025-06-01 14:xx, no
Helvetica, degenerate font metrics, width 1080. -/
def renderWorld0 : RenderWorld :=
  { now := ⟨2025, 6, 1, 14⟩
    fontFileOk := fun _ => false
    textbbox := fun _ _ => (0, 0, 0, 0)
    imageWidth := fun _ => 1080 }

/-- Filesystem for the C5 witness: the "good" asset exists and an
output file for the hour already exists. -/
def renderFS0 : RenderFS :=
  { dirs := []
    files := [("static/imgs/good.png", FileContent.binary),
              ("stories/2025-06-01_14.png", FileContent.binary)] }

/-! ## Story publisher (src/post_story.py)

HTTP is modelled by an oracle mapping each form-encoded POST request
to the response the remote end returns; the observable behaviour of a
run is its trace of events (console prints, POSTs, sleeps) plus its
result. `requests.Response.raise_for_status` raises only for status
codes in [400, 600), exactly as the library does. A response's JSON
body is modelled as the association list of its top-level string
fields (`.json()['id']`-style access is all the code uses); `Option`
models a field that may be absent, and Python `None` prints as
"None". -/

/-- A form-encoded POST request: URL and payload. A payload value of
`none` models Python `None` (as `creation_id` can be). -/
structure HttpRequest where
  url : String
  payload : List (String × Option String)
deriving DecidableEq

/-- An HTTP response as the code consumes it: status, reason phrase,
body text, final URL, and the top-level string fields of its JSON
body. -/
structure HttpResponse where
  status_code : Int
  reason : String
  text : String
  url : String
  json : List (String × String)
deriving DecidableEq

/-- `response.json().get(k)`. -/
def jsonGet (j : List (String × String)) (k : String) : Option String :=
  (j.find? (fun q => q.1 == k)).map (fun q => q.2)

/-- Printable form of an optional string (Python f-string of a value
that may be `None`). -/
def pyShowOpt (o : Option String) : String :=
  match o with
  | none => "None"
  | some s => s

/-- Model of `requests.Response.raise_for_status()`: an HTTPError for
4xx/5xx status codes, silence otherwise. -/
def raise_for_status (r : HttpResponse) : Except String Unit :=
  if 400 ≤ r.status_code ∧ r.status_code < 500 then
    .error (toString r.status_code ++ " Client Error: " ++ r.reason ++
      " for url: " ++ r.url)
  else if 500 ≤ r.status_code ∧ r.status_code < 600 then
    .error (toString r.status_code ++ " Server Error: " ++ r.reason ++
      " for url: " ++ r.url)
  else .ok ()

/-- Observable events of a publisher run. -/
inductive PubEvent where
  | printed (s : String)
  | posted (req : HttpRequest) (resp : HttpResponse)
  | slept (seconds : Nat)
deriving DecidableEq

/-- Whether an event is an HTTP POST. -/
def isHttpCall (e : PubEvent) : Bool :=
  match e with
  | .posted _ _ => true
  | _ => false

/-- Translation of `get_credentials` (lines 9-18). Python falsiness of
a string environment value is `None` or the empty string; the returned
pair is stripped. -/
def get_credentials (env : String → Option String) :
    Except String (String × String) :=
  match env "INSTAGRAM_ACCESS_TOKEN" with
  | none => .error "INSTAGRAM_ACCESS_TOKEN environment variable not set"
  | some access_token =>
    if access_token = "" then
      .error "INSTAGRAM_ACCESS_TOKEN environment variable not set"
    else
      match env "INSTAGRAM_USER_ID" with
      | none => .error "INSTAGRAM_USER_ID environment variable not set"
      | some user_id =>
        if user_id = "" then
          .error "INSTAGRAM_USER_ID environment variable not set"
        else .ok (pyStrip access_token, pyStrip user_id)

/-- Model of `pathlib.Path("stories") / filename`: an absolute
filename replaces the base, a relative one is joined with "/". -/
def pathJoin (base filename : String) : String :=
  if filename.startsWith "/" then filename else base ++ "/" ++ filename

/-- Translation of `validate_story_file` (lines 21-30) over existence
and is-file oracles for the filesystem. -/
def validate_story_file (fileExists fileIsFile : String → Bool)
    (filename : String) : Except String String :=
  let file_path := pathJoin "stories" filename
  if ¬ fileExists file_path then .error ("File not found: " ++ file_path)
  else if ¬ fileIsFile file_path then .error ("Not a file: " ++ file_path)
  else .ok file_path

/-- Translation of `get_github_image_url` (lines 33-43): environment
lookups with hard-coded defaults, the falsiness check on `repo`, and
the raw-content URL. -/
def get_github_image_url (env : String → Option String) (filename : String) :
    Except String String :=
  let repo := (env "GITHUB_REPOSITORY").getD "melisbackkk/sarajevosmogsquad-"
  let branch := (env "GITHUB_REF_NAME").getD "main"
  if repo = "" then .error "GITHUB_REPOSITORY environment variable not set"
  else .ok ("https://raw.githubusercontent.com/" ++ repo ++ "/" ++ branch ++
    "/stories/" ++ filename)

/-- Translation of `post_story_to_instagram` (lines 50-92): create the
media container, and unless `raise_for_status` raises, wait 3 seconds
and publish. The non-200 branches print the redacted body text first;
control falls through them when the status is not a 4xx/5xx. -/
def post_story_to_instagram (http : HttpRequest → HttpResponse)
    (image_url access_token user_id : String) :
    List PubEvent × Except String (Option String) :=
  let container_url := "https://graph.facebook.com/v21.0/" ++ user_id ++ "/media"
  let container_payload : List (String × Option String) :=
    [("image_url", some image_url), ("media_type", some "STORIES"),
     ("access_token", some access_token)]
  let req1 : HttpRequest := ⟨container_url, container_payload⟩
  let resp1 := http req1
  let ev1 : List PubEvent :=
    [.printed "Creating story container...", .posted req1 resp1]
  let errEv1 : List PubEvent :=
    if resp1.status_code ≠ 200 then
      [.printed ("Error: " ++ toString resp1.status_code ++ " - " ++
        sanitize_error_message resp1.text access_token)]
    else []
  match (if resp1.status_code ≠ 200 then raise_for_status resp1
         else .ok ()) with
  | .error e => (ev1 ++ errEv1, .error e)
  | .ok () =>
    let container_id := jsonGet resp1.json "id"
    let ev2 := ev1 ++ errEv1 ++
      [.printed ("Container created: " ++ pyShowOpt container_id),
       .printed "Waiting for Instagram to process...",
       .slept 3]
    let publish_url :=
      "https://graph.facebook.com/v21.0/" ++ user_id ++ "/media_publish"
    let publish_payload : List (String × Option String) :=
      [("creation_id", container_id), ("access_token", some access_token)]
    let req2 : HttpRequest := ⟨publish_url, publish_payload⟩
    let resp2 := http req2
    let ev3 := ev2 ++ [.printed "Publishing story...", .posted req2 resp2]
    let errEv2 : List PubEvent :=
      if resp2.status_code ≠ 200 then
        [.printed ("Error: " ++ toString resp2.status_code ++ " - " ++
          sanitize_error_message resp2.text access_token)]
      else []
    match (if resp2.status_code ≠ 200 then raise_for_status resp2
           else .ok ()) with
    | .error e => (ev3 ++ errEv2, .error e)
    | .ok () =>
      let media_id := jsonGet resp2.json "id"
      (ev3 ++ errEv2 ++
        [.printed ("Story published: " ++ pyShowOpt media_id)],
       .ok media_id)

/-- The ambient state a publisher invocation consults: the command-line
arguments after the script name, the environment, the filesystem
oracles, and the HTTP oracle. -/
structure PubWorld where
  args : List String
  env : String → Option String
  fileExists : String → Bool
  fileIsFile : String → Bool
  http : HttpRequest → HttpResponse

/-- The error prints of the top-level handler (lines 122-132): the
message is redacted exactly when `access_token` is already bound in
`locals()`, i.e. when `get_credentials` had succeeded. -/
def handlerPrints (e : String) (tok : Option String) : List PubEvent :=
  match tok with
  | some t => [.printed ("Error: " ++ sanitize_error_message e t)]
  | none => [.printed ("Error: " ++ e)]

/-- Translation of `main` (lines 95-134) of src/post_story.py: usage
check, then the try block chaining validation, URL construction,
credentials and the publish workflow, with the sanitizing top-level
handler; returns the trace and the exit code. -/
def post_story_main (w : PubWorld) : List PubEvent × Int :=
  match w.args with
  | [filename] =>
    let ev0 : List PubEvent := [.printed ("Validating file: " ++ filename)]
    match validate_story_file w.fileExists w.fileIsFile filename with
    | .error e => (ev0 ++ handlerPrints e none, 1)
    | .ok file_path =>
      let ev1 := ev0 ++ [.printed ("File found: " ++ file_path),
        .printed "\nConstructing GitHub URL..."]
      match get_github_image_url w.env filename with
      | .error e => (ev1 ++ handlerPrints e none, 1)
      | .ok image_url =>
        let ev2 := ev1 ++ [.printed ("Image URL: " ++ image_url),
          .printed "\nGetting credentials..."]
        match get_credentials w.env with
        | .error e => (ev2 ++ handlerPrints e none, 1)
        | .ok (access_token, user_id) =>
          let ev3 := ev2 ++ [.printed "\nPosting to Instagram..."]
          match post_story_to_instagram w.http image_url access_token user_id with
          | (evPost, .error e) =>
            (ev3 ++ evPost ++ handlerPrints e (some access_token), 1)
          | (evPost, .ok media_id) =>
            (ev3 ++ evPost ++
              [.printed ("\nSuccess! Story posted with media ID: " ++
                pyShowOpt media_id)], 0)
  | _ =>
    ([.printed "Usage: python post_story.py <filename>",
      .printed "Example: python post_story.py 2025-12-19_14.jpg",
      .printed "\nNote: File must exist in stories/ directory",
      .printed "      Image will be posted from GitHub repository"], 1)

/-- Concrete world for the C3 witness: one argument, empty filesystem,
empty environment, a constant HTTP oracle. -/
def pubWorld0 : PubWorld :=
  { args := ["2099-01-01_00.png"]
    env := fun _ => none
    fileExists := fun _ => false
    fileIsFile := fun _ => false
    http := fun _ => ⟨200, "OK", "", "", []⟩ }

/-- Constant HTTP oracle for the C9 witness: every POST returns 200
with an empty JSON object. -/
def c9Http : HttpRequest → HttpResponse :=
  fun _ => ⟨200, "OK", "{}", "u", []⟩

/-- The container-creation response of the C4 exhibit: HTTP 201 with a
JSON body holding an id. -/
def c4ContainerResp : HttpResponse :=
  { status_code := 201
    reason := "Created"
    text := "created body"
    url := "https://graph.facebook.com/v21.0/U1/media"
    json := [("id", "C123")] }

/-- The publish response of the C4 exhibit: HTTP 200 with a media id. -/
def c4PublishResp : HttpResponse :=
  { status_code := 200
    reason := "OK"
    text := "ok body"
    url := "https://graph.facebook.com/v21.0/U1/media_publish"
    json := [("id", "M456")] }

/-- HTTP oracle of the C4 exhibit. -/
def c4Http (req : HttpRequest) : HttpResponse :=
  if req.url = "https://graph.facebook.com/v21.0/U1/media" then c4ContainerResp
  else c4PublishResp

/-- C1: for every non-negative integer AQI, the two classification
functions realise four contiguous, non-overlapping, exhaustive buckets:
[0,50) gives asset "good" with label "Breathe easy", [50,100) gives
"ok"/"Mostly fine", [100,200) gives "bad"/"Unhealthy air", and [200,∞)
gives "dangerous"/"Stay inside!"; exactly one bucket condition holds, so
the boundary values 50, 100 and 200 land in the upper bucket. -/
theorem C1_tier_buckets (aqi : Int) (h : 0 ≤ aqi) :
    ((aqi < 50 →
        (get_base_image_name_and_color_from_aqi aqi).1 = "good" ∧
        get_label_from_aqi aqi = "Breathe easy") ∧
     (50 ≤ aqi → aqi < 100 →
        (get_base_image_name_and_color_from_aqi aqi).1 = "ok" ∧
        get_label_from_aqi aqi = "Mostly fine") ∧
     (100 ≤ aqi → aqi < 200 →
        (get_base_image_name_and_color_from_aqi aqi).1 = "bad" ∧
        get_label_from_aqi aqi = "Unhealthy air") ∧
     (200 ≤ aqi →
        (get_base_image_name_and_color_from_aqi aqi).1 = "dangerous" ∧
        get_label_from_aqi aqi = "Stay inside!")) ∧
    ((0 ≤ aqi ∧ aqi < 50) ∨ (50 ≤ aqi ∧ aqi < 100) ∨
     (100 ≤ aqi ∧ aqi < 200) ∨ 200 ≤ aqi) ∧
    (¬ ((0 ≤ aqi ∧ aqi < 50) ∧ (50 ≤ aqi ∧ aqi < 100)) ∧
     ¬ ((0 ≤ aqi ∧ aqi < 50) ∧ (100 ≤ aqi ∧ aqi < 200)) ∧
     ¬ ((0 ≤ aqi ∧ aqi < 50) ∧ 200 ≤ aqi) ∧
     ¬ ((50 ≤ aqi ∧ aqi < 100) ∧ (100 ≤ aqi ∧ aqi < 200)) ∧
     ¬ ((50 ≤ aqi ∧ aqi < 100) ∧ 200 ≤ aqi) ∧
     ¬ ((100 ≤ aqi ∧ aqi < 200) ∧ 200 ≤ aqi)) := by
  refine ⟨⟨?_, ?_, ?_, ?_⟩, by omega, by omega⟩ <;>
    simp only [get_base_image_name_and_color_from_aqi, get_label_from_aqi] <;>
    intros <;> split_ifs <;> simp_all <;> omega

/-- C1 witness: at the boundary value 50 the classification lands in the
upper bucket "ok"/"Mostly fine". -/
theorem C1_tier_buckets_witness :
    (get_base_image_name_and_color_from_aqi 50).1 = "ok" ∧
    get_label_from_aqi 50 = "Mostly fine" :=
  (C1_tier_buckets 50 (by decide)).1.2.1 (by decide) (by decide)

/-- Unfolding lemma: the pattern is non-empty and matches at the head. -/
theorem pyReplace_matched {s pat : List Char} (rep : List Char)
    (h1 : pat ≠ []) (h2 : pat <+: s) :
    pyReplace s pat rep = rep ++ pyReplace (s.drop pat.length) pat rep := by
  rw [pyReplace]
  exact dif_pos ⟨h1, h2⟩

/-- Unfolding lemma: empty source, non-empty pattern. -/
theorem pyReplace_nil {pat : List Char} (rep : List Char) (h1 : pat ≠ []) :
    pyReplace [] pat rep = [] := by
  rw [pyReplace]
  rw [dif_neg (by simp [h1])]
  simp [h1]

/-- Unfolding lemma: non-empty pattern not matching at the head. -/
theorem pyReplace_skip {c : Char} {rest pat : List Char} (rep : List Char)
    (h1 : pat ≠ []) (h2 : ¬ pat <+: c :: rest) :
    pyReplace (c :: rest) pat rep = c :: pyReplace rest pat rep := by
  rw [pyReplace]
  rw [dif_neg (by simp [h2])]
  simp [h1]

/-- When the (non-empty) pattern occurs nowhere in the source, Python's
replace returns the source unchanged. -/
theorem pyReplace_of_not_infix {s pat : List Char} (rep : List Char)
    (h1 : pat ≠ []) (h2 : ¬ pat <:+: s) :
    pyReplace s pat rep = s := by
  induction s with
  | nil => exact pyReplace_nil rep h1
  | cons c rest ih =>
    have hp : ¬ pat <+: c :: rest := fun hpre => h2 hpre.isInfix
    rw [pyReplace_skip rep h1 hp]
    have : ¬ pat <:+: rest := fun hinf => h2 (List.infix_cons_iff.mpr (Or.inr hinf))
    rw [ih this]

/-! ## Redaction analysis (claim C2)

Occurrences of a pattern in a concatenation split into an occurrence in
the left part, one in the right part, or one spanning the border; the
replacement text "***REDACTED***" begins and ends with the character
`*`, so a token that avoids `*` and does not occur inside the
replacement text cannot survive `pyReplace`. -/

/-- An infix of a concatenation lies in the left part, in the right
part, or spans the border with a non-empty piece on each side. -/
theorem infix_append_split {l A B : List Char} (h : l <:+: A ++ B) :
    l <:+: A ∨ l <:+: B ∨
      ∃ t₁ t₂, l = t₁ ++ t₂ ∧ t₁ ≠ [] ∧ t₂ ≠ [] ∧ t₁ <:+ A ∧ t₂ <+: B := by
  obtain ⟨u, v, huv⟩ := h
  have huv' : u ++ (l ++ v) = A ++ B := by simpa [List.append_assoc] using huv
  rcases List.append_eq_append_iff.mp huv' with ⟨w, hA, hlv⟩ | ⟨w, hu, hB⟩
  · rcases List.append_eq_append_iff.mp hlv with ⟨x, hw, hv⟩ | ⟨x, hl, hB'⟩
    · left
      exact ⟨u, x, by rw [hA, hw]; simp [List.append_assoc]⟩
    · rcases eq_or_ne w [] with hw0 | hw0
      · right; left
        subst hw0
        simp only [List.nil_append] at hl
        exact ⟨[], v, by rw [hB', hl]; simp⟩
      · rcases eq_or_ne x [] with hx0 | hx0
        · left
          subst hx0
          simp only [List.append_nil] at hl
          exact ⟨u, [], by rw [hA, hl]; simp⟩
        · right; right
          exact ⟨w, x, hl, hw0, hx0, ⟨u, hA.symm⟩, ⟨v, hB'.symm⟩⟩
  · right; left
    exact ⟨w, v, by rw [hB]; simp [List.append_assoc]⟩

/-- A non-empty suffix of a list that ends in `c` contains `c`. -/
theorem mem_of_suffix_concat {t ys : List Char} {c : Char}
    (h : t <:+ ys ++ [c]) (hne : t ≠ []) : c ∈ t := by
  obtain ⟨u, hu⟩ := h
  have h0 : (u ++ t).getLast? = some c := by rw [hu, List.getLast?_concat]
  rw [List.getLast?_append, List.getLast?_eq_getLast _ hne] at h0
  simp only [Option.or] at h0
  exact (Option.some.inj h0) ▸ List.getLast_mem hne

/-- A non-empty prefix of a list that begins with `c` contains `c`. -/
theorem mem_of_prefix_cons {t rest : List Char} {c : Char}
    (h : t <+: c :: rest) (hne : t ≠ []) : c ∈ t := by
  cases t with
  | nil => exact absurd rfl hne
  | cons d t' =>
    have := (List.cons_prefix_cons.mp h).1
    subst this
    exact List.mem_cons_self _ _

/-- A star-free non-empty prefix of the output of `pyReplace` with
replacement "***REDACTED***" is a prefix of the input: the replacement
text starts with `*`, so such a prefix never reaches inserted text. -/
theorem pyReplace_star_free_aux (tok : List Char) (h1 : tok ≠ []) :
    ∀ n (s : List Char), s.length ≤ n → ∀ t, t ≠ [] → Char.ofNat 42 ∉ t →
      t <+: pyReplace s tok "***REDACTED***".toList → t <+: s := by
  intro n
  induction n with
  | zero =>
    intro s hs t ht _ hpre
    have hs0 : s = [] := List.eq_nil_of_length_eq_zero (Nat.le_zero.mp hs)
    subst hs0
    rw [pyReplace_nil _ h1] at hpre
    exact absurd (List.prefix_nil.mp hpre) ht
  | succ n ih =>
    intro s hs t ht hstar hpre
    by_cases hm : tok <+: s
    · rw [pyReplace_matched _ h1 hm] at hpre
      have : "***REDACTED***".toList = Char.ofNat 42 :: "**REDACTED***".toList := by decide
      rw [this, List.cons_append] at hpre
      exact absurd (mem_of_prefix_cons hpre ht) hstar
    · cases s with
      | nil =>
        rw [pyReplace_nil _ h1] at hpre
        exact absurd (List.prefix_nil.mp hpre) ht
      | cons c rest =>
        rw [pyReplace_skip _ h1 hm] at hpre
        cases t with
        | nil => exact absurd rfl ht
        | cons d t' =>
          obtain ⟨hdc, ht'⟩ := List.cons_prefix_cons.mp hpre
          subst hdc
          rcases eq_or_ne t' [] with ht0 | ht0
          · subst ht0
            exact List.cons_prefix_cons.mpr ⟨rfl, List.nil_prefix⟩
          · have hstar' : Char.ofNat 42 ∉ t' := fun hmem =>
              hstar (List.mem_cons_of_mem _ hmem)
            have hrest : t' <+: rest :=
              ih rest (Nat.le_of_succ_le_succ hs) t' ht0 hstar' ht'
            exact List.cons_prefix_cons.mpr ⟨rfl, hrest⟩

/-- Core redaction property: a non-empty token that does not contain
the character `*` and does not occur inside "***REDACTED***" does not
occur in the output of `pyReplace` with that replacement. -/
theorem pyReplace_no_token (tok : List Char) (h1 : tok ≠ [])
    (h2 : Char.ofNat 42 ∉ tok)
    (h3 : ¬ tok <:+: "***REDACTED***".toList) :
    ∀ n (s : List Char), s.length ≤ n →
      ¬ tok <:+: pyReplace s tok "***REDACTED***".toList := by
  intro n
  induction n with
  | zero =>
    intro s hs hinf
    have hs0 : s = [] := List.eq_nil_of_length_eq_zero (Nat.le_zero.mp hs)
    subst hs0
    rw [pyReplace_nil _ h1] at hinf
    exact h1 (List.infix_nil.mp hinf)
  | succ n ih =>
    intro s hs hinf
    by_cases hm : tok <+: s
    · rw [pyReplace_matched _ h1 hm] at hinf
      rcases infix_append_split hinf with hL | hR | ⟨t₁, t₂, heq, ht₁, _, hsfx, _⟩
      · exact h3 hL
      · have hlen : (s.drop tok.length).length ≤ n := by
          have ha : 0 < tok.length := List.length_pos.mpr h1
          have hb : tok.length ≤ s.length := hm.length_le
          simp only [List.length_drop]
          omega
        exact ih (s.drop tok.length) hlen hR
      · have hdec : "***REDACTED***".toList =
            "***REDACTED**".toList ++ [Char.ofNat 42] := by decide
        rw [hdec] at hsfx
        have : Char.ofNat 42 ∈ t₁ := mem_of_suffix_concat hsfx ht₁
        exact h2 (heq ▸ List.mem_append_left _ this)
    · cases s with
      | nil =>
        rw [pyReplace_nil _ h1] at hinf
        exact h1 (List.infix_nil.mp hinf)
      | cons c rest =>
        rw [pyReplace_skip _ h1 hm] at hinf
        rcases List.infix_cons_iff.mp hinf with hpre | hinf'
        · have : tok <+: c :: rest := by
            have hfull : tok <+: pyReplace (c :: rest) tok "***REDACTED***".toList := by
              rw [pyReplace_skip _ h1 hm]
              exact hpre
            exact pyReplace_star_free_aux tok h1 (c :: rest).length (c :: rest)
              le_rfl tok h1 h2 hfull
          exact hm this
        · exact ih rest (Nat.le_of_succ_le_succ hs) hinf'

/-- C2 counterexample: the claim as stated is false. For the response
body "RED" and the non-empty access token "RED", the sanitized message
is "***REDACTED***", which contains the token "RED" as a substring
(the replacement text itself contains it). -/
theorem C2_counterexample :
    ("RED" : String) ≠ "" ∧
    "RED".toList <:+: (sanitize_error_message "RED" "RED").toList := by
  have hdrop : "RED".toList.drop "RED".toList.length = [] := by decide
  have he : sanitize_error_message "RED" "RED" = "***REDACTED***" := by
    show (⟨pyReplace "RED".toList "RED".toList "***REDACTED***".toList⟩ : String) = _
    rw [pyReplace_matched _ (by decide) (List.prefix_refl _), hdrop,
      pyReplace_nil _ (by decide)]
    decide
  rw [he]
  exact ⟨by decide, by decide⟩

/-- C2 amended: for every response-body string and every non-empty
access-token string that does not contain the character `*` and does
not occur as a substring of the replacement text "***REDACTED***", the
sanitized error message does not contain the token as a substring. -/
theorem C2_redaction_amended (message token : String) (h1 : token ≠ "")
    (h2 : Char.ofNat 42 ∉ token.toList)
    (h3 : ¬ token.toList <:+: "***REDACTED***".toList) :
    ¬ token.toList <:+: (sanitize_error_message message token).toList := by
  have hne : token.toList ≠ [] := by
    intro h
    apply h1
    cases token with
    | mk data =>
      simp only [String.toList] at h
      simp [h]
  have := pyReplace_no_token token.toList hne h2 h3
    message.toList.length message.toList le_rfl
  exact this

/-- C2 witness: the token "SECRET" satisfies the amended hypotheses and
is indeed absent from the sanitized text of a body that contained it. -/
theorem C2_redaction_amended_witness :
    (("SECRET" : String) ≠ "" ∧ Char.ofNat 42 ∉ "SECRET".toList ∧
      ¬ "SECRET".toList <:+: "***REDACTED***".toList) ∧
    ¬ "SECRET".toList <:+: (sanitize_error_message "xx SECRET yy" "SECRET").toList :=
  ⟨⟨by decide, by decide, by decide⟩,
   C2_redaction_amended "xx SECRET yy" "SECRET" (by decide) (by decide) (by decide)⟩

/-- C7 counterexample: the claim as stated is false. A page whose
primary element's text is "-5" makes `fetch_sarajevo_aqi` return the
negative integer -5 (Python's `int()` accepts a sign, and the primary
path has no digits-only guard). -/
theorem C7_counterexample :
    fetch_sarajevo_aqi ⟨some "-5", none⟩ = .ok (-5) ∧ (-5 : Int) < 0 := by
  constructor
  · rfl
  · decide

/-- Helper for C7: `pyInt` never returns a negative value unless its
argument starts with a minus sign. -/
theorem pyInt_nonneg_of_no_minus (s : String) (v : Int)
    (hh : s.toList.head? ≠ some '-') (hs : pyInt s = .ok v) : 0 ≤ v := by
  unfold pyInt at hs
  rcases hl : s.toList with _ | ⟨c, rest⟩ <;> simp only [hl] at hs
  · cases hs
  rw [hl] at hh
  simp only [List.head?, ne_eq, Option.some.injEq] at hh
  rw [if_neg hh] at hs
  by_cases hp : c = '+'
  · rw [if_pos hp] at hs
    split at hs
    · have := Except.ok.inj hs
      omega
    · simp at hs
  · rw [if_neg hp] at hs
    split at hs
    · have := Except.ok.inj hs
      omega
    · simp at hs

/-- C7 amended: whenever `fetch_sarajevo_aqi` returns, the value is a
non-negative integer, provided that on the primary path the element's
stripped text does not begin with a minus sign; the fallback
marker-scanning path is unconditionally non-negative because of its
digits-only guard. -/
theorem C7_fetch_nonneg (soup : Soup) (v : Int)
    (hok : fetch_sarajevo_aqi soup = .ok v)
    (hsign : ∀ t, soup.aqiValueText = some t →
      (pyStrip t).toList.head? ≠ some '-') :
    0 ≤ v := by
  obtain ⟨aval, uprev⟩ := soup
  rcases aval with _ | t
  · rcases uprev with _ | prevs
    · simp [fetch_sarajevo_aqi] at hok
    · simp only [fetch_sarajevo_aqi] at hok
      rcases hf : prevs.find? siblingDigitTest with _ | os <;>
        simp only [hf] at hok
      · cases hok
      · rcases os with _ | s
        · cases hok
        · have hdig : siblingDigitTest (some s) = true := List.find?_some hf
          simp only [siblingDigitTest, pyIsDigit, Bool.and_eq_true,
            decide_eq_true_eq] at hdig
          have hh : (pyStrip s).toList.head? ≠ some '-' := by
            rcases hl : (pyStrip s).toList with _ | ⟨c, rest⟩
            · simp
            · have hc : c.isDigit = true := by
                have hall := hdig.2
                rw [hl, List.all_cons] at hall
                exact (Bool.and_eq_true_iff.mp hall).1
              simp only [List.head?, ne_eq, Option.some.injEq]
              intro hcm
              rw [hcm] at hc
              exact absurd hc (by decide)
          exact pyInt_nonneg_of_no_minus (pyStrip s) v hh hok
  · simp only [fetch_sarajevo_aqi] at hok
    exact pyInt_nonneg_of_no_minus (pyStrip t) v (hsign t rfl) hok

/-- C7 witness: on a page where the primary element's text is " 42 ",
the fetcher returns 42, which is non-negative. -/
theorem C7_fetch_nonneg_witness :
    fetch_sarajevo_aqi ⟨some " 42 ", none⟩ = .ok 42 ∧ (0 : Int) ≤ 42 :=
  ⟨by rfl, C7_fetch_nonneg ⟨some " 42 ", none⟩ 42 (by rfl)
    (fun t ht => by
      simp only [Option.some.injEq] at ht
      subst ht
      decide)⟩

/-- C8: with the primary selector absent, `fetch_sarajevo_aqi` raises a
ValueError: "Could not find AQI element on page" when the "US AQI"
marker is also absent, and "Could not parse AQI value from page" when
the marker is found but the backward scan meets no purely numeric text
node. -/
theorem C8_fetch_parse_errors (soup : Soup)
    (hmain : soup.aqiValueText = none) :
    (soup.usAqiPrevStrings = none →
      fetch_sarajevo_aqi soup =
        .error (.valueError "Could not find AQI element on page")) ∧
    (∀ prevs, soup.usAqiPrevStrings = some prevs →
      (∀ os ∈ prevs, siblingDigitTest os = false) →
      fetch_sarajevo_aqi soup =
        .error (.valueError "Could not parse AQI value from page")) := by
  obtain ⟨aval, uprev⟩ := soup
  simp only at hmain
  subst hmain
  constructor
  · intro hprev
    simp only at hprev
    subst hprev
    rfl
  · intro prevs hprev hall
    simp only at hprev
    subst hprev
    have hf : prevs.find? siblingDigitTest = none := by
      rw [List.find?_eq_none]
      intro x hx
      simp [hall x hx]
    simp only [fetch_sarajevo_aqi, hf]

/-- C8 witness: both error paths at concrete pages: one with neither
selector, one whose marker scan sees only a non-numeric node and a
string-less node. -/
theorem C8_fetch_parse_errors_witness :
    fetch_sarajevo_aqi ⟨none, none⟩ =
      .error (.valueError "Could not find AQI element on page") ∧
    fetch_sarajevo_aqi ⟨none, some [some "moderate", none]⟩ =
      .error (.valueError "Could not parse AQI value from page") :=
  ⟨(C8_fetch_parse_errors ⟨none, none⟩ rfl).1 rfl,
   (C8_fetch_parse_errors ⟨none, some [some "moderate", none]⟩ rfl).2
     [some "moderate", none] rfl (by decide)⟩

/-- Creating a directory leaves the file map unchanged. -/
theorem fsMakeDir_files (fs : RenderFS) (d : String) :
    (fsMakeDir fs d).files = fs.files := by
  unfold fsMakeDir
  split <;> rfl

/-- Lookup is insensitive to directory creation. -/
theorem fsLookup_makeDir (fs : RenderFS) (d p : String) :
    fsLookup (fsMakeDir fs d) p = fsLookup fs p := by
  unfold fsLookup
  rw [fsMakeDir_files]

/-- The created directory is present afterwards. -/
theorem fsMakeDir_mem (fs : RenderFS) (d : String) :
    d ∈ (fsMakeDir fs d).dirs := by
  unfold fsMakeDir
  split
  · assumption
  · exact List.mem_cons_self _ _

/-- Writing a file makes its content the one looked up, whether or not
the path existed before. -/
theorem fsLookup_write (fs : RenderFS) (p : String) (c : FileContent) :
    fsLookup (fsWrite fs p c) p = some c := by
  simp [fsLookup, fsWrite]

/-- C5: for every AQI integer, every prior filesystem in which the
severity tier's background asset exists (whether or not an output file
for the hour already exists), and every current time, the renderer
returns the path "stories/<YYYY-MM-DD_HH>.png", ensures the stories
directory exists, and stores at that path the image composed from the
tier's background with the caption, the "AQI: n" line and the label
drawn on it; an existing file for the same hour is overwritten, never
an error. -/
theorem C5_renderer_output (w : RenderWorld) (fs : RenderFS) (aqi : Int)
    (hasset : fsLookup fs
      ("static/imgs/" ++ (get_base_image_name_and_color_from_aqi aqi).1 ++ ".png")
      ≠ none) :
    (generate_story_image w fs aqi).2 =
      .ok ("stories/" ++ strftime_date_hour w.now ++ ".png") ∧
    "stories" ∈ (generate_story_image w fs aqi).1.dirs ∧
    ∃ img : PILImage,
      fsLookup (generate_story_image w fs aqi).1
          ("stories/" ++ strftime_date_hour w.now ++ ".png") =
        some (.image img) ∧
      img.sourcePath =
        "static/imgs/" ++ (get_base_image_name_and_color_from_aqi aqi).1 ++ ".png" ∧
      img.drawn.map (fun d => d.text) =
        [strftime_caption w.now, "AQI: " ++ toString aqi, get_label_from_aqi aqi] := by
  rcases hbg : fsLookup fs
      ("static/imgs/" ++ (get_base_image_name_and_color_from_aqi aqi).1 ++ ".png")
    with _ | c
  · exact absurd hbg hasset
  · simp only [generate_story_image, fsLookup_makeDir, hbg]
    refine ⟨trivial, ?_, _, fsLookup_write _ _ _, rfl, rfl⟩
    show "stories" ∈ (fsMakeDir fs "stories").dirs
    exact fsMakeDir_mem fs "stories"

/-- C5 witness: AQI 35 at 2025-06-01 14:xx over a filesystem already
holding stories/2025-06-01_14.png succeeds and (over)writes that path. -/
theorem C5_renderer_output_witness :
    fsLookup renderFS0
      ("static/imgs/" ++ (get_base_image_name_and_color_from_aqi 35).1 ++ ".png")
      ≠ none ∧
    ((generate_story_image renderWorld0 renderFS0 35).2 =
      .ok ("stories/" ++ strftime_date_hour renderWorld0.now ++ ".png") ∧
     "stories" ∈ (generate_story_image renderWorld0 renderFS0 35).1.dirs ∧
     ∃ img : PILImage,
       fsLookup (generate_story_image renderWorld0 renderFS0 35).1
           ("stories/" ++ strftime_date_hour renderWorld0.now ++ ".png") =
         some (.image img) ∧
       img.sourcePath =
         "static/imgs/" ++ (get_base_image_name_and_color_from_aqi 35).1 ++ ".png" ∧
       img.drawn.map (fun d => d.text) =
         [strftime_caption renderWorld0.now, "AQI: " ++ toString (35 : Int),
          get_label_from_aqi 35]) ∧
    strftime_date_hour renderWorld0.now = "2025-06-01_14" :=
  ⟨by decide, C5_renderer_output renderWorld0 renderFS0 35 (by decide), by rfl⟩

/-- C6: for every AQI integer and every filesystem missing the
severity tier's background asset, the renderer raises a file error and
writes nothing: the file map is exactly as before the call (only the
stories directory may have been created). -/
theorem C6_missing_asset (w : RenderWorld) (fs : RenderFS) (aqi : Int)
    (hmiss : fsLookup fs
      ("static/imgs/" ++ (get_base_image_name_and_color_from_aqi aqi).1 ++ ".png")
      = none) :
    (generate_story_image w fs aqi).2 =
      .error (.fileNotFoundError
        ("static/imgs/" ++ (get_base_image_name_and_color_from_aqi aqi).1 ++ ".png")) ∧
    (generate_story_image w fs aqi).1.files = fs.files := by
  simp only [generate_story_image, fsLookup_makeDir, hmiss]
  exact ⟨trivial, fsMakeDir_files fs "stories"⟩

/-- C6 witness: AQI 250 needs static/imgs/dangerous.png; over the empty
filesystem the renderer fails with that path and writes no file. -/
theorem C6_missing_asset_witness :
    fsLookup ⟨[], []⟩
      ("static/imgs/" ++ (get_base_image_name_and_color_from_aqi 250).1 ++ ".png")
      = none ∧
    ((generate_story_image renderWorld0 ⟨[], []⟩ 250).2 =
      .error (.fileNotFoundError
        ("static/imgs/" ++ (get_base_image_name_and_color_from_aqi 250).1 ++ ".png")) ∧
     (generate_story_image renderWorld0 ⟨[], []⟩ 250).1.files = ([] : List (String × FileContent))) :=
  ⟨by decide, C6_missing_asset renderWorld0 ⟨[], []⟩ 250 (by decide)⟩

/-- Validation fails whenever the joined path is not an existing file. -/
theorem validate_story_file_error (fe fif : String → Bool) (f : String)
    (h : ¬ (fe (pathJoin "stories" f) = true ∧ fif (pathJoin "stories" f) = true)) :
    ∃ msg, validate_story_file fe fif f = .error msg := by
  unfold validate_story_file
  by_cases he : fe (pathJoin "stories" f) = true
  · have hif : ¬ fif (pathJoin "stories" f) = true := fun hig => h ⟨he, hig⟩
    exact ⟨_, by rw [if_neg (not_not_intro he), if_pos hif]⟩
  · exact ⟨_, by rw [if_pos he]⟩

/-- C3: whenever the single filename argument does not name an existing
regular file at `Path("stories") / filename`, the publisher's main
exits with code 1 and its trace holds no HTTP call at all (neither the
container-creation POST nor the publish POST). -/
theorem C3_no_network_on_missing_file (w : PubWorld) (f : String)
    (hargs : w.args = [f])
    (hfile : ¬ (w.fileExists (pathJoin "stories" f) = true ∧
                w.fileIsFile (pathJoin "stories" f) = true)) :
    (post_story_main w).2 = 1 ∧
    ∀ e ∈ (post_story_main w).1, isHttpCall e = false := by
  obtain ⟨args, env, fe, fif, http⟩ := w
  simp only at hargs hfile
  subst hargs
  obtain ⟨msg, hv⟩ := validate_story_file_error fe fif f hfile
  simp only [post_story_main, hv]
  refine ⟨trivial, ?_⟩
  intro e he
  simp only [handlerPrints, List.mem_append, List.mem_cons,
    List.not_mem_nil, or_false] at he
  rcases he with rfl | rfl <;> rfl

/-- C3 witness: with the stories directory empty, the run exits 1 and
performs no HTTP call. -/
theorem C3_no_network_on_missing_file_witness :
    (pubWorld0.args = ["2099-01-01_00.png"] ∧
     ¬ (pubWorld0.fileExists (pathJoin "stories" "2099-01-01_00.png") = true ∧
        pubWorld0.fileIsFile (pathJoin "stories" "2099-01-01_00.png") = true)) ∧
    ((post_story_main pubWorld0).2 = 1 ∧
     ∀ e ∈ (post_story_main pubWorld0).1, isHttpCall e = false) :=
  ⟨⟨rfl, by decide⟩,
   C3_no_network_on_missing_file pubWorld0 "2099-01-01_00.png" rfl (by decide)⟩

/-- C10 counterexample: the claim as stated is false. In an environment
where GITHUB_REPOSITORY is set to the empty string, `os.getenv` does
not substitute the default and the falsiness check raises, so
`get_github_image_url` does not return a URL. -/
theorem C10_counterexample :
    get_github_image_url
        (fun k => if k = "GITHUB_REPOSITORY" then some "" else none) "x.png" =
      .error "GITHUB_REPOSITORY environment variable not set" := by
  rfl

/-- C10 amended: for every filename and every environment in which
GITHUB_REPOSITORY is not set to the empty string (unset is fine: the
non-empty hard-coded default "melisbackkk/sarajevosmogsquad-" then
applies, and "main" for the branch), `get_github_image_url` returns
the raw-content URL and never raises; its error branch is reachable
only for the empty-string setting. -/
theorem C10_github_url (env : String → Option String) (filename : String)
    (h : env "GITHUB_REPOSITORY" ≠ some "") :
    get_github_image_url env filename =
      .ok ("https://raw.githubusercontent.com/" ++
        (env "GITHUB_REPOSITORY").getD "melisbackkk/sarajevosmogsquad-" ++ "/" ++
        (env "GITHUB_REF_NAME").getD "main" ++ "/stories/" ++ filename) := by
  unfold get_github_image_url
  rcases he : env "GITHUB_REPOSITORY" with _ | r
  · rfl
  · have hr : ¬ r = "" := fun h0 => h (by rw [he, h0])
    simp only [Option.getD_some]
    rw [if_neg hr]

/-- C10 witness: with both variables unset the defaults produce the
repository's own raw URL. -/
theorem C10_github_url_witness :
    ((fun _ => (none : Option String)) "GITHUB_REPOSITORY" ≠ some "") ∧
    get_github_image_url (fun _ => none) "f.png" =
      .ok ("https://raw.githubusercontent.com/" ++
        ((fun _ => (none : Option String)) "GITHUB_REPOSITORY").getD
          "melisbackkk/sarajevosmogsquad-" ++ "/" ++
        ((fun _ => (none : Option String)) "GITHUB_REF_NAME").getD "main" ++
        "/stories/" ++ "f.png") ∧
    get_github_image_url (fun _ => none) "f.png" =
      .ok "https://raw.githubusercontent.com/melisbackkk/sarajevosmogsquad-/main/stories/f.png" :=
  ⟨by simp, C10_github_url (fun _ => none) "f.png" (by simp), by rfl⟩

/-- C9: when the container-creation POST returns HTTP 200 with a JSON
body lacking an "id" field, `post_story_to_instagram` does not fail
there: it sleeps the fixed 3 seconds and sends the publish POST with
`creation_id` equal to the absent value (`None`); and if the publish
response is likewise a 200 without "id", the call returns successfully
with a `None` media identifier. -/
theorem C9_missing_id_proceeds (http : HttpRequest → HttpResponse)
    (image_url tok uid : String)
    (h200 : (http ⟨"https://graph.facebook.com/v21.0/" ++ uid ++ "/media",
        [("image_url", some image_url), ("media_type", some "STORIES"),
         ("access_token", some tok)]⟩).status_code = 200)
    (hid : jsonGet (http ⟨"https://graph.facebook.com/v21.0/" ++ uid ++ "/media",
        [("image_url", some image_url), ("media_type", some "STORIES"),
         ("access_token", some tok)]⟩).json "id" = none) :
    PubEvent.slept 3 ∈ (post_story_to_instagram http image_url tok uid).1 ∧
    PubEvent.posted
        ⟨"https://graph.facebook.com/v21.0/" ++ uid ++ "/media_publish",
         [("creation_id", (none : Option String)), ("access_token", some tok)]⟩
        (http ⟨"https://graph.facebook.com/v21.0/" ++ uid ++ "/media_publish",
         [("creation_id", (none : Option String)), ("access_token", some tok)]⟩)
      ∈ (post_story_to_instagram http image_url tok uid).1 ∧
    ((http ⟨"https://graph.facebook.com/v21.0/" ++ uid ++ "/media_publish",
        [("creation_id", (none : Option String)), ("access_token", some tok)]⟩).status_code
        = 200 →
      jsonGet (http ⟨"https://graph.facebook.com/v21.0/" ++ uid ++ "/media_publish",
        [("creation_id", (none : Option String)), ("access_token", some tok)]⟩).json "id"
        = none →
      (post_story_to_instagram http image_url tok uid).2 = .ok none) := by
  simp only [post_story_to_instagram, h200, hid, ne_eq, not_true_eq_false,
    if_false]
  refine ⟨?_, ?_, ?_⟩
  · split <;> simp
  · split <;> simp
  · intro h2 h3
    simp only [h2, h3]
    simp

/-- C9 witness: with both responses 200 and id-less, the run sleeps,
posts the publish request with creation_id None, and returns None. -/
theorem C9_missing_id_proceeds_witness :
    ((c9Http ⟨"https://graph.facebook.com/v21.0/" ++ "U" ++ "/media",
        [("image_url", some "i"), ("media_type", some "STORIES"),
         ("access_token", some "T")]⟩).status_code = 200 ∧
     jsonGet (c9Http ⟨"https://graph.facebook.com/v21.0/" ++ "U" ++ "/media",
        [("image_url", some "i"), ("media_type", some "STORIES"),
         ("access_token", some "T")]⟩).json "id" = none) ∧
    (PubEvent.slept 3 ∈ (post_story_to_instagram c9Http "i" "T" "U").1 ∧
     PubEvent.posted
         ⟨"https://graph.facebook.com/v21.0/" ++ "U" ++ "/media_publish",
          [("creation_id", (none : Option String)), ("access_token", some "T")]⟩
         (c9Http ⟨"https://graph.facebook.com/v21.0/" ++ "U" ++ "/media_publish",
          [("creation_id", (none : Option String)), ("access_token", some "T")]⟩)
       ∈ (post_story_to_instagram c9Http "i" "T" "U").1 ∧
     ((c9Http ⟨"https://graph.facebook.com/v21.0/" ++ "U" ++ "/media_publish",
         [("creation_id", (none : Option String)), ("access_token", some "T")]⟩).status_code
         = 200 →
       jsonGet (c9Http ⟨"https://graph.facebook.com/v21.0/" ++ "U" ++ "/media_publish",
         [("creation_id", (none : Option String)), ("access_token", some "T")]⟩).json "id"
         = none →
       (post_story_to_instagram c9Http "i" "T" "U").2 = .ok none)) :=
  ⟨⟨rfl, rfl⟩, C9_missing_id_proceeds c9Http "i" "T" "U" rfl rfl⟩

/-- C4: exhibit of the failing input. The container-creation POST
returns the non-200 status 201; the run prints the redacted error
message, but `raise_for_status` is a no-op outside [400, 600), so the
code falls through, sleeps, performs the publish POST anyway and ends
in success — not in the FAILED state the claim requires for every
non-200 status. -/
theorem C4_code_bug_exhibit :
    (c4Http ⟨"https://graph.facebook.com/v21.0/U1/media",
      [("image_url", some "http://img.png"), ("media_type", some "STORIES"),
       ("access_token", some "TOKEN")]⟩).status_code = 201 ∧
    (post_story_to_instagram c4Http "http://img.png" "TOKEN" "U1").2 =
      .ok (some "M456") ∧
    PubEvent.printed ("Error: " ++ toString (201 : Int) ++ " - " ++
        sanitize_error_message "created body" "TOKEN")
      ∈ (post_story_to_instagram c4Http "http://img.png" "TOKEN" "U1").1 ∧
    PubEvent.posted
        ⟨"https://graph.facebook.com/v21.0/U1/media_publish",
         [("creation_id", some "C123"), ("access_token", some "TOKEN")]⟩
        c4PublishResp
      ∈ (post_story_to_instagram c4Http "http://img.png" "TOKEN" "U1").1 := by
  refine ⟨rfl, rfl, ?_, ?_⟩ <;>
    simp [post_story_to_instagram, c4Http, c4ContainerResp, c4PublishResp,
      raise_for_status, jsonGet, pyShowOpt]
